import Mathlib

/-
Shallow embedding of the cache-coordinated request layer of the
makerspace-inventory-hub repository (the Apps Script API service module).

JavaScript values that can be cached are modelled by an inductive `Value`
(JSON-like), JS truthiness by `jsTruthy`, numbers by rationals (exact for
every integer and for short decimal literals such as 1.5), timestamps by
integers (milliseconds), the `Map` cache by a function from keys to
optional entries, and exceptions by `Except String`.  Network effects are
made explicit: the backend is an oracle parameter and every issued request
is appended to a call log, so "no network call happened" is the statement
that the log is unchanged.
-/

namespace MakerspaceHub

/-- A JSON-like runtime value, as stored in the cache and returned by GET
decoding. -/
inductive Value where
  | null : Value
  | bool (b : Bool) : Value
  | num (q : ℚ) : Value
  | str (s : String) : Value
  | arr (xs : List Value) : Value

/-- JavaScript truthiness of a `Value` (`if (hit)`): `null`, `false`, `0`
and `""` are falsy; every array is truthy. -/
def jsTruthy : Value → Bool
  | Value.null => false
  | Value.bool b => b
  | Value.num q => q ≠ 0
  | Value.str s => s ≠ ""
  | Value.arr _ => true

/-- JavaScript truthiness of an optional string field (`if (data.error)`):
an absent field and the empty string are falsy. -/
def optStrTruthy : Option String → Bool
  | none => false
  | some s => s ≠ ""

/-- Whitespace characters removed by JavaScript `String.prototype.trim`
(ECMAScript WhiteSpace and LineTerminator code points). -/
def isJsWhitespace (c : Char) : Bool :=
  c.val = 0x9 ∨ c.val = 0xA ∨ c.val = 0xB ∨ c.val = 0xC ∨ c.val = 0xD ∨
  c.val = 0x20 ∨ c.val = 0xA0 ∨ c.val = 0x1680 ∨
  (0x2000 ≤ c.val ∧ c.val ≤ 0x200A) ∨ c.val = 0x2028 ∨ c.val = 0x2029 ∨
  c.val = 0x202F ∨ c.val = 0x205F ∨ c.val = 0x3000 ∨ c.val = 0xFEFF

/-- JavaScript `value.trim()`: drop leading and trailing whitespace. -/
def jsTrim (s : String) : String :=
  String.mk (((s.data.dropWhile isJsWhitespace).reverse.dropWhile
    isJsWhitespace).reverse)

/-- `interface CacheEntry<T> \x7b data: T; timestamp: number \x7d` -/
structure CacheEntry where
  data : Value
  timestamp : ℤ

/-- `const cache = new Map<string, CacheEntry<unknown>>()` — the map is
modelled extensionally as a function from keys to optional entries. -/
def Cache : Type := String → Option CacheEntry

/-- `const CACHE_TTL_MS = 2 * 60 * 1000` (milliseconds). -/
def CACHE_TTL_MS : ℤ := 2 * 60 * 1000

/-- `getCached<T>(key)`: returns the stored data if present and fresh;
deletes the entry and returns `null` if it is older than the TTL; returns
`null` if absent.  The returned `Cache` is the map after the call (the
lazy delete is a side effect).  `Value.null` plays the role of the TS
`null` return. -/
def getCached (c : Cache) (key : String) (now : ℤ) : Value × Cache :=
  match c key with
  | none => (Value.null, c)
  | some entry =>
      if now - entry.timestamp > CACHE_TTL_MS then
        (Value.null, fun k => if k = key then none else c k)
      else
        (entry.data, c)

/-- `setCache<T>(key, data)`: unconditionally insert/replace with the
current timestamp. -/
def setCache (c : Cache) (key : String) (data : Value) (now : ℤ) : Cache :=
  fun k => if k = key then some ⟨data, now⟩ else c k

/-- `invalidateCache(key?)`: `if (key) cache.delete(key); else
cache.clear()`.  Note the JS truthiness test: both an absent argument and
the empty string clear the whole store. -/
def invalidateCache (key : Option String) (c : Cache) : Cache :=
  match key with
  | none => fun _ => none
  | some k =>
      if k = "" then fun _ => none
      else fun x => if x = k then none else c x

/-- Body of a POST request, `JSON.stringify`-ed in the source.  `ret` is
the `action: "return"` body. -/
inductive PostBody where
  | borrow (userId caseName component : String) (quantity : ℚ) : PostBody
  | ret (userId component : String) (quantity : ℚ) : PostBody
  deriving DecidableEq, Repr

/-- A network request issued by this layer (GET query parameters in
insertion order, or a POST body). -/
inductive Request where
  | get (params : List (String × String)) : Request
  | post (body : PostBody) : Request
  deriving DecidableEq, Repr

/-- Decoded POST response `\x7b success?: boolean; error?: string \x7d`. -/
structure WriteResponse where
  success : Option Bool
  error : Option String
  deriving DecidableEq, Repr

/-- The mutable state visible to this layer: the cache map plus the log of
network requests issued so far. -/
structure NetState where
  cache : Cache
  calls : List Request

/-- Backend oracle for GET requests: maps query parameters to a decoded
JSON value or a thrown error message (non-2xx status or decode failure). -/
def GetBackend : Type := List (String × String) → Except String Value

/-- Backend oracle for POST requests. -/
def PostBackend : Type := PostBody → Except String WriteResponse

/-- `get<T>(params)`: issue a GET; the request is recorded in the call log
whether it succeeds or throws. -/
def getHttp (gb : GetBackend) (params : List (String × String))
    (st : NetState) : Except String Value × NetState :=
  (gb params, { st with calls := st.calls ++ [Request.get params] })

/-- `post<T>(body)`: issue a POST; the request is recorded in the call log
whether it succeeds or throws. -/
def postHttp (pb : PostBackend) (body : PostBody)
    (st : NetState) : Except String WriteResponse × NetState :=
  (pb body, { st with calls := st.calls ++ [Request.post body] })

/-- `cachedGet<T>(cacheKey, params)`: `const hit = getCached(cacheKey);
if (hit) return hit;` then fetch, store, return.  The hit test is JS
truthiness, and the lazy delete performed by `getCached` persists even
when the fetch throws. -/
def cachedGet (gb : GetBackend) (cacheKey : String)
    (params : List (String × String)) (now : ℤ)
    (st : NetState) : Except String Value × NetState :=
  let looked := getCached st.cache cacheKey now
  if jsTruthy looked.1 then
    (Except.ok looked.1, { st with cache := looked.2 })
  else
    match getHttp gb params { st with cache := looked.2 } with
    | (Except.error e, st1) => (Except.error e, st1)
    | (Except.ok data, st1) =>
        (Except.ok data, { st1 with cache := setCache st1.cache cacheKey data now })

/-- `validateNotEmpty(value, fieldName)`: throws `fieldName + " is
required."` when the value is falsy (empty) or trims to the empty
string. -/
def validateNotEmpty (value fieldName : String) : Except String Unit :=
  if value = "" ∨ jsTrim value = "" then
    Except.error (fieldName ++ " is required.")
  else
    Except.ok ()

/-- `validatePositiveInt(value, fieldName)`: throws unless
`Number.isInteger(value) && value >= 1`.  A rational is an integer iff its
denominator is 1. -/
def validatePositiveInt (value : ℚ) (fieldName : String) : Except String Unit :=
  if value.den ≠ 1 ∨ value < 1 then
    Except.error (fieldName ++ " must be a positive integer.")
  else
    Except.ok ()

/-- `\x7b success: boolean; message: string \x7d` returned by the write
operations. -/
structure TransactionResult where
  success : Bool
  message : String
  deriving DecidableEq, Repr

/-- JS number-to-string interpolation as used in the confirmation
messages; exact on integers, which is the only use reachable after
`validatePositiveInt`. -/
def jsNumToString (q : ℚ) : String :=
  if q.den = 1 then toString q.num else toString q

/-- `fetchCases()`. -/
def fetchCases (gb : GetBackend) (now : ℤ) (st : NetState) :
    Except String Value × NetState :=
  cachedGet gb "getCases" [("action", "getCases")] now st

/-- `fetchComponentsByCase(caseName)`. -/
def fetchComponentsByCase (gb : GetBackend) (caseName : String) (now : ℤ)
    (st : NetState) : Except String Value × NetState :=
  match validateNotEmpty caseName "Case name" with
  | Except.error e => (Except.error e, st)
  | Except.ok _ =>
      cachedGet gb ("getComponents:" ++ caseName)
        [("action", "getComponents"), ("case", caseName)] now st

/-- `fetchUserHoldings(userId)`: validated, uncached GET with the trimmed
user id. -/
def fetchUserHoldings (gb : GetBackend) (userId : String)
    (st : NetState) : Except String Value × NetState :=
  match validateNotEmpty userId "User ID" with
  | Except.error e => (Except.error e, st)
  | Except.ok _ =>
      getHttp gb [("action", "getUserHoldings"), ("userId", jsTrim userId)] st

/-- `fetchLiveStock()`. -/
def fetchLiveStock (gb : GetBackend) (now : ℤ) (st : NetState) :
    Except String Value × NetState :=
  cachedGet gb "getLiveStock" [("action", "getLiveStock")] now st

/-- `borrowComponent(userId, caseName, component, quantity)`: validate,
POST, translate `data.error`, and on success invalidate the live-stock
and per-case component caches. -/
def borrowComponent (pb : PostBackend)
    (userId caseName component : String) (quantity : ℚ)
    (st : NetState) : Except String TransactionResult × NetState :=
  match validateNotEmpty userId "User ID" with
  | Except.error e => (Except.error e, st)
  | Except.ok _ =>
  match validateNotEmpty caseName "Case name" with
  | Except.error e => (Except.error e, st)
  | Except.ok _ =>
  match validateNotEmpty component "Component" with
  | Except.error e => (Except.error e, st)
  | Except.ok _ =>
  match validatePositiveInt quantity "Quantity" with
  | Except.error e => (Except.error e, st)
  | Except.ok _ =>
  let body := PostBody.borrow (jsTrim userId) caseName component quantity
  match postHttp pb body st with
  | (Except.error e, st1) => (Except.error e, st1)
  | (Except.ok data, st1) =>
      if optStrTruthy data.error then
        (Except.ok ⟨false, data.error.getD ""⟩, st1)
      else
        let c2 : Cache :=
          invalidateCache (some ("getComponents:" ++ caseName))
            (invalidateCache (some "getLiveStock") st1.cache)
        (Except.ok ⟨true, "Successfully borrowed " ++ jsNumToString quantity
            ++ "x " ++ component ++ "!"⟩,
         { st1 with cache := c2 })

/-- `returnComponent(userId, component, quantity)`: validate, POST,
translate `data.error`, and on success invalidate the live-stock cache. -/
def returnComponent (pb : PostBackend)
    (userId component : String) (quantity : ℚ)
    (st : NetState) : Except String TransactionResult × NetState :=
  match validateNotEmpty userId "User ID" with
  | Except.error e => (Except.error e, st)
  | Except.ok _ =>
  match validateNotEmpty component "Component" with
  | Except.error e => (Except.error e, st)
  | Except.ok _ =>
  match validatePositiveInt quantity "Quantity" with
  | Except.error e => (Except.error e, st)
  | Except.ok _ =>
  let body := PostBody.ret (jsTrim userId) component quantity
  match postHttp pb body st with
  | (Except.error e, st1) => (Except.error e, st1)
  | (Except.ok data, st1) =>
      if optStrTruthy data.error then
        (Except.ok ⟨false, data.error.getD ""⟩, st1)
      else
        let c1 : Cache := invalidateCache (some "getLiveStock") st1.cache
        (Except.ok ⟨true, "Successfully returned " ++ jsNumToString quantity
            ++ "x " ++ component ++ "!"⟩,
         { st1 with cache := c1 })

-- ─── Helper lemmas ───────────────────────────────────────────────────────────

theorem validateNotEmpty_ok (value fieldName : String) (h : jsTrim value ≠ "") :
    validateNotEmpty value fieldName = Except.ok () := by
  have hv : value ≠ "" := fun hv => h (by rw [hv]; rfl)
  unfold validateNotEmpty
  rw [if_neg]
  rintro (h1 | h2)
  · exact hv h1
  · exact h h2

theorem validateNotEmpty_err (value fieldName : String) (h : jsTrim value = "") :
    validateNotEmpty value fieldName =
      Except.error (fieldName ++ " is required.") := by
  unfold validateNotEmpty
  rw [if_pos (Or.inr h)]

theorem validatePositiveInt_ok (q : ℚ) (f : String) (h1 : q.den = 1)
    (h2 : 1 ≤ q) : validatePositiveInt q f = Except.ok () := by
  unfold validatePositiveInt
  rw [if_neg]
  rintro (h | h)
  · exact h h1
  · exact absurd h2 (not_le.mpr h)

theorem validatePositiveInt_err (q : ℚ) (f : String) (h : q.den ≠ 1 ∨ q < 1) :
    validatePositiveInt q f =
      Except.error (f ++ " must be a positive integer.") := by
  unfold validatePositiveInt
  rw [if_pos h]

theorem getComponents_key_ne_empty (c : String) :
    ("getComponents:" ++ c) ≠ "" := by
  intro h
  have h2 : ("getComponents:" ++ c).data = ([] : List Char) :=
    congrArg String.data h
  have h3 : ("getComponents:" ++ c).data = "getComponents:".data ++ c.data := rfl
  rw [h3] at h2
  exact absurd (List.append_eq_nil.mp h2).1 (by decide)

-- ─── Sample states and backends used by concrete counterexamples ─────────────

/-- The empty cache map. -/
def emptyCache : Cache := fun _ => none

/-- A cache entry holding an empty stock array, stored at time 0. -/
def stockEntry : CacheEntry := ⟨Value.arr [], 0⟩

/-- A cache holding only a fresh live-stock entry. -/
def liveStockCache : Cache :=
  fun k => if k = "getLiveStock" then some stockEntry else none

/-- A state with the live-stock entry cached and an empty call log. -/
def liveStockState : NetState := ⟨liveStockCache, []⟩

-- ─── C4 ─────────────────────────────────────────────────────────────────────

/-- C4: for every key and value, a `getCached` performed after
`setCache key value` while `now - storedAt ≤ CACHE_TTL_MS` returns exactly
the stored value and leaves the cache unchanged. -/
theorem getCached_after_setCache (c : Cache) (key : String) (v : Value)
    (t now : ℤ) (h : now - t ≤ CACHE_TTL_MS) :
    getCached (setCache c key v t) key now = (v, setCache c key v t) := by
  have hreq : setCache c key v t key = some ⟨v, t⟩ := by
    unfold setCache
    exact if_pos rfl
  have hnot : ¬(now - (⟨v, t⟩ : CacheEntry).timestamp > CACHE_TTL_MS) :=
    not_lt.mpr h
  unfold getCached
  rw [hreq]
  simp only [if_neg hnot]

/-- Witness for C4 at key "k", value `Value.arr []`, store time 0, read
time 1000. -/
theorem getCached_after_setCache_witness :
    ((1000 : ℤ) - 0 ≤ CACHE_TTL_MS) ∧
    getCached (setCache emptyCache "k" (Value.arr []) 0) "k" 1000 =
      (Value.arr [], setCache emptyCache "k" (Value.arr []) 0) :=
  ⟨by decide, getCached_after_setCache emptyCache "k" (Value.arr []) 0 1000
    (by decide)⟩

-- ─── C5 ─────────────────────────────────────────────────────────────────────

/-- C5: for every key whose entry is strictly older than the TTL,
`getCached` returns the absent value (`null`), deletes the entry (leaving
every other key unchanged), and every subsequent `getCached` of that key
on the resulting cache also returns absent, without further change. -/
theorem getCached_expired (c : Cache) (key : String) (entry : CacheEntry)
    (now : ℤ) (hent : c key = some entry)
    (hexp : now - entry.timestamp > CACHE_TTL_MS) :
    (getCached c key now).1 = Value.null ∧
    (getCached c key now).2 key = none ∧
    (∀ k, k ≠ key → (getCached c key now).2 k = c k) ∧
    (∀ now2, getCached (getCached c key now).2 key now2 =
      (Value.null, (getCached c key now).2)) := by
  have hred : getCached c key now =
      (Value.null, fun k => if k = key then none else c k) := by
    unfold getCached
    rw [hent]
    simp only [if_pos hexp]
  refine ⟨by rw [hred], by rw [hred]; simp, ?_, ?_⟩
  · intro k hk
    rw [hred]
    simp only [if_neg hk]
  · intro now2
    rw [hred]
    unfold getCached
    simp

/-- Witness for C5: entry stored at time 0 and read at
`CACHE_TTL_MS + 1`. -/
theorem getCached_expired_witness :
    (liveStockCache "getLiveStock" = some stockEntry ∧
      (CACHE_TTL_MS + 1 : ℤ) - stockEntry.timestamp > CACHE_TTL_MS) ∧
    (getCached liveStockCache "getLiveStock" (CACHE_TTL_MS + 1)).1 =
      Value.null ∧
    (getCached liveStockCache "getLiveStock" (CACHE_TTL_MS + 1)).2
      "getLiveStock" = none ∧
    (∀ k, k ≠ "getLiveStock" →
      (getCached liveStockCache "getLiveStock" (CACHE_TTL_MS + 1)).2 k =
        liveStockCache k) ∧
    (∀ now2,
      getCached (getCached liveStockCache "getLiveStock"
          (CACHE_TTL_MS + 1)).2 "getLiveStock" now2 =
        (Value.null, (getCached liveStockCache "getLiveStock"
          (CACHE_TTL_MS + 1)).2)) :=
  ⟨⟨rfl, by decide⟩,
   getCached_expired liveStockCache "getLiveStock" stockEntry
     (CACHE_TTL_MS + 1) rfl (by decide)⟩

-- ─── C6 ─────────────────────────────────────────────────────────────────────

/-- Counterexample to C6 as stated: `invalidateCache` applied to the key
`""` does not delete "at most the entry for that key" — because the empty
string is falsy in JS, `if (key)` fails and the whole store is cleared,
removing the entry of the unrelated key "getLiveStock". -/
theorem invalidateCache_empty_key_clears_other_keys :
    liveStockCache "getLiveStock" = some stockEntry ∧
    ("getLiveStock" : String) ≠ "" ∧
    invalidateCache (some "") liveStockCache "getLiveStock" = none := by
  refine ⟨rfl, by decide, rfl⟩

/-- C6 (amended): for every NON-EMPTY key, `invalidateCache key` deletes
at most that key's entry and leaves every other key unchanged, and is a
no-op on a cache where the key is absent; `invalidateCache` with no key
clears the store; the empty-string key, being falsy, also clears the
whole store. -/
theorem invalidateCache_frame (c : Cache) (k : String) (hk : k ≠ "") :
    invalidateCache (some k) c k = none ∧
    (∀ k2, k2 ≠ k → invalidateCache (some k) c k2 = c k2) ∧
    (c k = none → ∀ k2, invalidateCache (some k) c k2 = c k2) ∧
    (∀ c2 k2, invalidateCache none c2 k2 = none) ∧
    (∀ c2 k2, invalidateCache (some "") c2 k2 = none) := by
  have hbranch : invalidateCache (some k) c =
      fun x => if x = k then none else c x := by
    show (if k = "" then (fun _ => none)
        else fun x => if x = k then none else c x) = _
    rw [if_neg hk]
  refine ⟨by rw [hbranch]; simp, ?_, ?_, fun c2 k2 => rfl, fun c2 k2 => rfl⟩
  · intro k2 hk2
    rw [hbranch]
    show (if k2 = k then none else c k2) = c k2
    rw [if_neg hk2]
  · intro habs k2
    rw [hbranch]
    show (if k2 = k then none else c k2) = c k2
    by_cases h2 : k2 = k
    · rw [if_pos h2, h2, habs]
    · rw [if_neg h2]

/-- Witness for C6 (amended) at the key "getLiveStock" over the sample
cache. -/
theorem invalidateCache_frame_witness :
    ("getLiveStock" : String) ≠ "" ∧
    (invalidateCache (some "getLiveStock") liveStockCache "getLiveStock" =
      none ∧
    (∀ k2, k2 ≠ "getLiveStock" →
      invalidateCache (some "getLiveStock") liveStockCache k2 =
        liveStockCache k2) ∧
    (liveStockCache "getLiveStock" = none →
      ∀ k2, invalidateCache (some "getLiveStock") liveStockCache k2 =
        liveStockCache k2) ∧
    (∀ c2 k2, invalidateCache none c2 k2 = none) ∧
    (∀ c2 k2, invalidateCache (some "") c2 k2 = none)) :=
  ⟨by decide, invalidateCache_frame liveStockCache "getLiveStock" (by decide)⟩

-- ─── cachedGet helper lemmas ─────────────────────────────────────────────────

theorem setCache_self (c : Cache) (key : String) (v : Value) (t : ℤ) :
    setCache c key v t key = some ⟨v, t⟩ := by
  unfold setCache
  exact if_pos rfl

theorem getCached_absent (c : Cache) (key : String) (now : ℤ)
    (h : c key = none) : getCached c key now = (Value.null, c) := by
  unfold getCached
  rw [h]

theorem getCached_fresh (c : Cache) (key : String) (entry : CacheEntry)
    (now : ℤ) (hent : c key = some entry)
    (hfresh : now - entry.timestamp ≤ CACHE_TTL_MS) :
    getCached c key now = (entry.data, c) := by
  have hnot : ¬(now - entry.timestamp > CACHE_TTL_MS) := not_lt.mpr hfresh
  unfold getCached
  rw [hent]
  simp only [if_neg hnot]

theorem getCached_frame (c : Cache) (key k : String) (now : ℤ)
    (hk : k ≠ key) : (getCached c key now).2 k = c k := by
  unfold getCached
  cases hc : c key with
  | none => rfl
  | some entry =>
      dsimp only
      by_cases ht : now - entry.timestamp > CACHE_TTL_MS
      · rw [if_pos ht]
        show (if k = key then none else c k) = c k
        rw [if_neg hk]
      · rw [if_neg ht]

theorem cachedGet_hit (gb : GetBackend) (key : String)
    (params : List (String × String)) (now : ℤ) (st : NetState)
    (hhit : jsTruthy (getCached st.cache key now).1 = true) :
    cachedGet gb key params now st =
      (Except.ok (getCached st.cache key now).1,
       ⟨(getCached st.cache key now).2, st.calls⟩) := by
  unfold cachedGet
  dsimp only
  rw [if_pos hhit]

theorem cachedGet_miss_ok (gb : GetBackend) (key : String)
    (params : List (String × String)) (now : ℤ) (st : NetState) (v : Value)
    (hmiss : jsTruthy (getCached st.cache key now).1 = false)
    (hok : gb params = Except.ok v) :
    cachedGet gb key params now st =
      (Except.ok v,
       ⟨setCache (getCached st.cache key now).2 key v now,
        st.calls ++ [Request.get params]⟩) := by
  unfold cachedGet getHttp
  dsimp only
  rw [hmiss]
  simp only [Bool.false_eq_true, if_false, hok]

theorem cachedGet_miss_fail (gb : GetBackend) (key : String)
    (params : List (String × String)) (now : ℤ) (st : NetState) (e : String)
    (hmiss : jsTruthy (getCached st.cache key now).1 = false)
    (hfail : gb params = Except.error e) :
    cachedGet gb key params now st =
      (Except.error e,
       ⟨(getCached st.cache key now).2, st.calls ++ [Request.get params]⟩) := by
  unfold cachedGet getHttp
  dsimp only
  rw [hmiss]
  simp only [Bool.false_eq_true, if_false, hfail]

-- ─── C3 ─────────────────────────────────────────────────────────────────────

/-- A cache whose only entry holds the falsy value `false`, stored at
time 0. -/
def falsyCache : Cache :=
  fun k => if k = "getLiveStock" then some ⟨Value.bool false, 0⟩ else none

/-- A state holding `falsyCache` and an empty call log. -/
def falsyState : NetState := ⟨falsyCache, []⟩

/-- A backend that always answers an empty JSON array. -/
def gbEmptyArr : GetBackend := fun _ => Except.ok (Value.arr [])

/-- Counterexample to C3 as stated: the hit test in `cachedGet` is JS
truthiness (`if (hit)`), so a cached FALSY value — here the value
`false`, stored at time 0 and read back at time 0, well within the TTL —
is not served from the cache: a network call is issued. -/
theorem cachedGet_falsy_cached_value_fetches :
    falsyState.cache "getLiveStock" = some ⟨Value.bool false, 0⟩ ∧
    ((0 : ℤ) - (0 : ℤ) ≤ CACHE_TTL_MS) ∧
    falsyState.calls = [] ∧
    (cachedGet gbEmptyArr "getLiveStock" [("action", "getLiveStock")] 0
      falsyState).2.calls = [Request.get [("action", "getLiveStock")]] := by
  exact ⟨rfl, by decide, rfl, rfl⟩

/-- C3 (amended): for every key whose cached value is TRUTHY (every value
cached by this repository is a JSON array, hence truthy) and fresh
(`now - storedAt ≤ TTL`), `cachedGet` returns the cached value
immediately, leaving the cache and the call log unchanged — no network
call; in particular two sequential `getLiveStock()` calls within the TTL
with no intervening write issue exactly one network call in total.
A cached falsy value (`false`, `0`, `""`, `null`) is instead re-fetched. -/
theorem cachedGet_fresh_truthy_hit (gb : GetBackend) (key : String)
    (params : List (String × String)) (now : ℤ) (st : NetState)
    (entry : CacheEntry) (hent : st.cache key = some entry)
    (hfresh : now - entry.timestamp ≤ CACHE_TTL_MS)
    (htruthy : jsTruthy entry.data = true) :
    cachedGet gb key params now st = (Except.ok entry.data, st) ∧
    (∀ xs now1 now2 st0, st0.cache "getLiveStock" = none →
      gb [("action", "getLiveStock")] = Except.ok (Value.arr xs) →
      now2 - now1 ≤ CACHE_TTL_MS →
      (fetchLiveStock gb now2 (fetchLiveStock gb now1 st0).2).2.calls =
        st0.calls ++ [Request.get [("action", "getLiveStock")]]) := by
  constructor
  · have h1 := getCached_fresh st.cache key entry now hent hfresh
    have hhit : jsTruthy (getCached st.cache key now).1 = true := by
      rw [h1]
      exact htruthy
    rw [cachedGet_hit gb key params now st hhit, h1]
  · intro xs now1 now2 st0 h0 hok httl
    have habs := getCached_absent st0.cache "getLiveStock" now1 h0
    have hmiss : jsTruthy (getCached st0.cache "getLiveStock" now1).1 = false := by
      rw [habs]
      rfl
    have hfirst : fetchLiveStock gb now1 st0 =
        (Except.ok (Value.arr xs),
         ⟨setCache (getCached st0.cache "getLiveStock" now1).2 "getLiveStock"
            (Value.arr xs) now1,
          st0.calls ++ [Request.get [("action", "getLiveStock")]]⟩) := by
      unfold fetchLiveStock
      exact cachedGet_miss_ok gb _ _ now1 st0 (Value.arr xs) hmiss hok
    have hc1 : (setCache (getCached st0.cache "getLiveStock" now1).2
        "getLiveStock" (Value.arr xs) now1) "getLiveStock" =
        some ⟨Value.arr xs, now1⟩ :=
      setCache_self _ _ _ _
    have h2 := getCached_fresh _ "getLiveStock" ⟨Value.arr xs, now1⟩ now2 hc1 httl
    have hhit2 : jsTruthy (getCached (setCache
        (getCached st0.cache "getLiveStock" now1).2 "getLiveStock"
        (Value.arr xs) now1) "getLiveStock" now2).1 = true := by
      rw [h2]
      rfl
    rw [hfirst]
    unfold fetchLiveStock
    rw [cachedGet_hit gb "getLiveStock" _ now2 _ hhit2]

/-- Witness for C3 (amended): a fresh truthy entry over the sample
live-stock cache, with `gbEmptyArr` as the backend. -/
theorem cachedGet_fresh_truthy_hit_witness :
    (liveStockState.cache "getLiveStock" = some stockEntry ∧
      (1000 : ℤ) - stockEntry.timestamp ≤ CACHE_TTL_MS ∧
      jsTruthy stockEntry.data = true) ∧
    (cachedGet gbEmptyArr "getLiveStock" [("action", "getLiveStock")] 1000
        liveStockState = (Except.ok stockEntry.data, liveStockState) ∧
    (∀ xs now1 now2 st0, st0.cache "getLiveStock" = none →
      gbEmptyArr [("action", "getLiveStock")] = Except.ok (Value.arr xs) →
      now2 - now1 ≤ CACHE_TTL_MS →
      (fetchLiveStock gbEmptyArr now2 (fetchLiveStock gbEmptyArr now1 st0).2).2.calls =
        st0.calls ++ [Request.get [("action", "getLiveStock")]])) :=
  ⟨⟨rfl, by decide, rfl⟩,
   cachedGet_fresh_truthy_hit gbEmptyArr "getLiveStock"
     [("action", "getLiveStock")] 1000 liveStockState stockEntry rfl
     (by decide) rfl⟩

-- ─── C8 ─────────────────────────────────────────────────────────────────────

/-- A backend whose fetch always fails (non-2xx response). -/
def gbFail : GetBackend := fun _ => Except.error "Request failed: 500 "

/-- Counterexample to C8 as stated: with an EXPIRED entry under the key,
a failing fetch does not leave the cache equal to its prior state — the
lookup that preceded the fetch already lazily deleted the expired entry,
so the entry for the key goes from present to absent even though the
fetch failed. -/
theorem cachedGet_failed_fetch_changed_cache :
    liveStockState.cache "getLiveStock" = some stockEntry ∧
    (CACHE_TTL_MS + 1 : ℤ) - stockEntry.timestamp > CACHE_TTL_MS ∧
    (cachedGet gbFail "getLiveStock" [("action", "getLiveStock")]
      (CACHE_TTL_MS + 1) liveStockState).1 =
        Except.error "Request failed: 500 " ∧
    (cachedGet gbFail "getLiveStock" [("action", "getLiveStock")]
      (CACHE_TTL_MS + 1) liveStockState).2.cache "getLiveStock" = none := by
  exact ⟨rfl, by decide, rfl, rfl⟩

/-- C8 (amended): on a cache miss with a failing fetch, the failure
propagates to the caller and no cache entry is written: the cache after
the call is exactly the cache left by the lookup, every key other than
the requested one is untouched, and when the miss was a clean miss (no
entry present at all) the cache is exactly the cache before the call.
The only possible difference from the prior state is the lazy removal of
an already-expired entry under the requested key. -/
theorem cachedGet_failure_uncached (gb : GetBackend) (key : String)
    (params : List (String × String)) (now : ℤ) (st : NetState) (e : String)
    (hmiss : jsTruthy (getCached st.cache key now).1 = false)
    (hfail : gb params = Except.error e) :
    (cachedGet gb key params now st).1 = Except.error e ∧
    (cachedGet gb key params now st).2.cache = (getCached st.cache key now).2 ∧
    (∀ k, k ≠ key → (cachedGet gb key params now st).2.cache k = st.cache k) ∧
    (st.cache key = none →
      (cachedGet gb key params now st).2.cache = st.cache) := by
  have hred := cachedGet_miss_fail gb key params now st e hmiss hfail
  refine ⟨by rw [hred], by rw [hred], ?_, ?_⟩
  · intro k hk
    rw [hred]
    exact getCached_frame st.cache key k now hk
  · intro habs
    rw [hred]
    show (getCached st.cache key now).2 = st.cache
    rw [getCached_absent st.cache key now habs]

/-- Witness for C8 (amended): a clean miss on the empty cache with the
failing backend. -/
theorem cachedGet_failure_uncached_witness :
    (jsTruthy (getCached emptyCache "getLiveStock" 0).1 = false ∧
      gbFail [("action", "getLiveStock")] =
        Except.error "Request failed: 500 ") ∧
    ((cachedGet gbFail "getLiveStock" [("action", "getLiveStock")] 0
        ⟨emptyCache, []⟩).1 = Except.error "Request failed: 500 " ∧
    (cachedGet gbFail "getLiveStock" [("action", "getLiveStock")] 0
        ⟨emptyCache, []⟩).2.cache =
      (getCached emptyCache "getLiveStock" 0).2 ∧
    (∀ k, k ≠ "getLiveStock" →
      (cachedGet gbFail "getLiveStock" [("action", "getLiveStock")] 0
        ⟨emptyCache, []⟩).2.cache k = emptyCache k) ∧
    (emptyCache "getLiveStock" = none →
      (cachedGet gbFail "getLiveStock" [("action", "getLiveStock")] 0
        ⟨emptyCache, []⟩).2.cache = emptyCache)) :=
  ⟨⟨rfl, rfl⟩,
   cachedGet_failure_uncached gbFail "getLiveStock"
     [("action", "getLiveStock")] 0 ⟨emptyCache, []⟩
     "Request failed: 500 " rfl rfl⟩

-- ─── Write-operation helper lemmas ───────────────────────────────────────────

theorem invalidateCache_key_app (c : Cache) (k : String) (hk : k ≠ "") :
    invalidateCache (some k) c k = none := by
  show (if k = "" then (fun _ => none)
      else fun x => if x = k then none else c x) k = none
  rw [if_neg hk]
  show (if k = k then none else c k) = none
  rw [if_pos rfl]

theorem invalidateCache_ne_key_app (c : Cache) (k x : String) (hk : k ≠ "")
    (hx : x ≠ k) : invalidateCache (some k) c x = c x := by
  show (if k = "" then (fun _ => none)
      else fun x => if x = k then none else c x) x = c x
  rw [if_neg hk]
  show (if x = k then none else c x) = c x
  rw [if_neg hx]

theorem cachedGet_calls_on_absent (gb : GetBackend) (key : String)
    (params : List (String × String)) (now : ℤ) (st : NetState)
    (h : st.cache key = none) :
    (cachedGet gb key params now st).2.calls =
      st.calls ++ [Request.get params] := by
  have habs := getCached_absent st.cache key now h
  have hmiss : jsTruthy (getCached st.cache key now).1 = false := by
    rw [habs]
    rfl
  cases hg : gb params with
  | error e => rw [cachedGet_miss_fail gb key params now st e hmiss hg]
  | ok v => rw [cachedGet_miss_ok gb key params now st v hmiss hg]

theorem borrowComponent_validated (pb : PostBackend) (u c m : String)
    (q : ℚ) (st : NetState)
    (hu : jsTrim u ≠ "") (hc : jsTrim c ≠ "") (hm : jsTrim m ≠ "")
    (hq : q.den = 1) (hq1 : 1 ≤ q) :
    borrowComponent pb u c m q st =
      (match pb (PostBody.borrow (jsTrim u) c m q) with
       | Except.error e =>
           (Except.error e,
            ⟨st.cache,
             st.calls ++ [Request.post (PostBody.borrow (jsTrim u) c m q)]⟩)
       | Except.ok data =>
           if optStrTruthy data.error then
             (Except.ok ⟨false, data.error.getD ""⟩,
              ⟨st.cache,
               st.calls ++ [Request.post (PostBody.borrow (jsTrim u) c m q)]⟩)
           else
             (Except.ok ⟨true, "Successfully borrowed " ++ jsNumToString q
                ++ "x " ++ m ++ "!"⟩,
              ⟨invalidateCache (some ("getComponents:" ++ c))
                 (invalidateCache (some "getLiveStock") st.cache),
               st.calls ++
                 [Request.post (PostBody.borrow (jsTrim u) c m q)]⟩)) := by
  unfold borrowComponent postHttp
  rw [validateNotEmpty_ok u _ hu, validateNotEmpty_ok c _ hc,
      validateNotEmpty_ok m _ hm, validatePositiveInt_ok q _ hq hq1]
  dsimp only
  cases pb (PostBody.borrow (jsTrim u) c m q) with
  | error e => rfl
  | ok data => rfl

theorem returnComponent_validated (pb : PostBackend) (u m : String)
    (q : ℚ) (st : NetState)
    (hu : jsTrim u ≠ "") (hm : jsTrim m ≠ "")
    (hq : q.den = 1) (hq1 : 1 ≤ q) :
    returnComponent pb u m q st =
      (match pb (PostBody.ret (jsTrim u) m q) with
       | Except.error e =>
           (Except.error e,
            ⟨st.cache,
             st.calls ++ [Request.post (PostBody.ret (jsTrim u) m q)]⟩)
       | Except.ok data =>
           if optStrTruthy data.error then
             (Except.ok ⟨false, data.error.getD ""⟩,
              ⟨st.cache,
               st.calls ++ [Request.post (PostBody.ret (jsTrim u) m q)]⟩)
           else
             (Except.ok ⟨true, "Successfully returned " ++ jsNumToString q
                ++ "x " ++ m ++ "!"⟩,
              ⟨invalidateCache (some "getLiveStock") st.cache,
               st.calls ++ [Request.post (PostBody.ret (jsTrim u) m q)]⟩)) := by
  unfold returnComponent postHttp
  rw [validateNotEmpty_ok u _ hu, validateNotEmpty_ok m _ hm,
      validatePositiveInt_ok q _ hq hq1]
  dsimp only
  cases pb (PostBody.ret (jsTrim u) m q) with
  | error e => rfl
  | ok data => rfl

-- ─── C1 ─────────────────────────────────────────────────────────────────────

/-- C1: for validated inputs, when the backend POST response carries no
error field, `borrowComponent` returns the templated success result,
deletes exactly the cache entries for "getLiveStock" and
"getComponents:" + caseName (every other key is untouched), and
subsequent `fetchLiveStock` / `fetchComponentsByCase caseName` calls on
the resulting state miss the cache and issue a network call. -/
theorem borrow_success_invalidates (pb : PostBackend)
    (userId caseName component : String) (quantity : ℚ) (st : NetState)
    (resp : WriteResponse)
    (hu : jsTrim userId ≠ "") (hc : jsTrim caseName ≠ "")
    (hm : jsTrim component ≠ "") (hq : quantity.den = 1)
    (hq1 : 1 ≤ quantity)
    (hpb : pb (PostBody.borrow (jsTrim userId) caseName component quantity) =
      Except.ok resp)
    (herr : resp.error = none) :
    (borrowComponent pb userId caseName component quantity st).1 =
      Except.ok ⟨true, "Successfully borrowed " ++ jsNumToString quantity
        ++ "x " ++ component ++ "!"⟩ ∧
    (borrowComponent pb userId caseName component quantity st).2.cache
      "getLiveStock" = none ∧
    (borrowComponent pb userId caseName component quantity st).2.cache
      ("getComponents:" ++ caseName) = none ∧
    (∀ k, k ≠ "getLiveStock" → k ≠ "getComponents:" ++ caseName →
      (borrowComponent pb userId caseName component quantity st).2.cache k =
        st.cache k) ∧
    (∀ gb now,
      (fetchLiveStock gb now
        (borrowComponent pb userId caseName component quantity st).2).2.calls =
      (borrowComponent pb userId caseName component quantity st).2.calls ++
        [Request.get [("action", "getLiveStock")]]) ∧
    (∀ gb now,
      (fetchComponentsByCase gb caseName now
        (borrowComponent pb userId caseName component quantity st).2).2.calls =
      (borrowComponent pb userId caseName component quantity st).2.calls ++
        [Request.get [("action", "getComponents"), ("case", caseName)]]) := by
  have hgc : ("getComponents:" ++ caseName) ≠ "" :=
    getComponents_key_ne_empty caseName
  have hred := borrowComponent_validated pb userId caseName component
    quantity st hu hc hm hq hq1
  rw [hpb] at hred
  have hfalse : optStrTruthy resp.error = false := by
    rw [herr]
    rfl
  simp only [hfalse, Bool.false_eq_true, if_false] at hred
  have hcache2 : (borrowComponent pb userId caseName component quantity
      st).2.cache = invalidateCache (some ("getComponents:" ++ caseName))
        (invalidateCache (some "getLiveStock") st.cache) := by
    rw [hred]
  have hls : (borrowComponent pb userId caseName component quantity
      st).2.cache "getLiveStock" = none := by
    rw [hcache2]
    by_cases hsame : ("getLiveStock" : String) = "getComponents:" ++ caseName
    · rw [← hsame] at hgc ⊢
      exact invalidateCache_key_app _ "getLiveStock" hgc
    · rw [invalidateCache_ne_key_app _ _ _ hgc hsame]
      exact invalidateCache_key_app st.cache "getLiveStock" (by decide)
  have hgcnone : (borrowComponent pb userId caseName component quantity
      st).2.cache ("getComponents:" ++ caseName) = none := by
    rw [hcache2]
    exact invalidateCache_key_app _ _ hgc
  refine ⟨by rw [hred], hls, hgcnone, ?_, ?_, ?_⟩
  · intro k hk1 hk2
    rw [hcache2, invalidateCache_ne_key_app _ _ _ hgc hk2,
        invalidateCache_ne_key_app _ _ _ (by decide) hk1]
  · intro gb now
    exact cachedGet_calls_on_absent gb _ _ now _ hls
  · intro gb now
    unfold fetchComponentsByCase
    rw [validateNotEmpty_ok caseName _ hc]
    exact cachedGet_calls_on_absent gb _ _ now _ hgcnone

/-- Backend that accepts every write. -/
def pbSuccess : PostBackend := fun _ => Except.ok ⟨some true, none⟩

/-- Witness for C1: `borrow("u1", "Case A", "Widget", 2)` against an
accepting backend, starting from the sample cached state. -/
theorem borrow_success_invalidates_witness :
    (jsTrim "u1" ≠ "" ∧ jsTrim "Case A" ≠ "" ∧ jsTrim "Widget" ≠ "" ∧
      (2 : ℚ).den = 1 ∧ (1 : ℚ) ≤ 2 ∧
      pbSuccess (PostBody.borrow (jsTrim "u1") "Case A" "Widget" 2) =
        Except.ok ⟨some true, none⟩) ∧
    (borrowComponent pbSuccess "u1" "Case A" "Widget" 2 liveStockState).1 =
      Except.ok ⟨true, "Successfully borrowed " ++ jsNumToString 2
        ++ "x " ++ "Widget" ++ "!"⟩ :=
  ⟨⟨by decide, by decide, by decide, by decide, by norm_num, rfl⟩,
   (borrow_success_invalidates pbSuccess "u1" "Case A" "Widget" 2
     liveStockState ⟨some true, none⟩ (by decide) (by decide) (by decide)
     (by decide) (by norm_num) rfl rfl).1⟩

-- ─── C2 ─────────────────────────────────────────────────────────────────────

/-- Backend that answers every write with an error field holding the
EMPTY string. -/
def pbEmptyError : PostBackend := fun _ => Except.ok ⟨none, some ""⟩

/-- Counterexample to C2 as stated: when the backend response CONTAINS an
error field whose value is the empty string, `if (data.error)` is falsy,
so the code takes the success path — it returns `success:true` and DOES
invalidate the cached "getLiveStock" entry, contradicting both halves of
the claim. -/
theorem borrow_empty_error_field_not_failure :
    (borrowComponent pbEmptyError "u1" "Case A" "Widget" 2
      liveStockState).1 =
      Except.ok ⟨true, "Successfully borrowed 2x Widget!"⟩ ∧
    (borrowComponent pbEmptyError "u1" "Case A" "Widget" 2
      liveStockState).2.cache "getLiveStock" = none ∧
    liveStockState.cache "getLiveStock" = some stockEntry := by
  exact ⟨rfl, rfl, rfl⟩

/-- C2 (amended): for validated inputs, when the backend response carries
a NON-EMPTY error field, both write operations return
`success:false` with that error string, without raising, and perform no
cache invalidation: the cache map is left exactly unchanged.  (When the
error field is present but empty, JS truthiness sends the code down the
success path instead.) -/
theorem write_business_rejection_no_invalidation (pb : PostBackend)
    (userId caseName component : String) (quantity : ℚ) (st : NetState)
    (respB respR : WriteResponse) (eB eR : String)
    (hu : jsTrim userId ≠ "") (hc : jsTrim caseName ≠ "")
    (hm : jsTrim component ≠ "") (hq : quantity.den = 1)
    (hq1 : 1 ≤ quantity)
    (hpbB : pb (PostBody.borrow (jsTrim userId) caseName component quantity) =
      Except.ok respB)
    (herrB : respB.error = some eB) (heB : eB ≠ "")
    (hpbR : pb (PostBody.ret (jsTrim userId) component quantity) =
      Except.ok respR)
    (herrR : respR.error = some eR) (heR : eR ≠ "") :
    (borrowComponent pb userId caseName component quantity st).1 =
      Except.ok ⟨false, eB⟩ ∧
    (borrowComponent pb userId caseName component quantity st).2.cache =
      st.cache ∧
    (returnComponent pb userId component quantity st).1 =
      Except.ok ⟨false, eR⟩ ∧
    (returnComponent pb userId component quantity st).2.cache = st.cache := by
  have hredB := borrowComponent_validated pb userId caseName component
    quantity st hu hc hm hq hq1
  rw [hpbB] at hredB
  have htB : optStrTruthy respB.error = true := by
    rw [herrB]
    exact decide_eq_true heB
  simp only [htB, if_true] at hredB
  have hgetB : respB.error.getD "" = eB := by rw [herrB]; rfl
  have hredR := returnComponent_validated pb userId component quantity st
    hu hm hq hq1
  rw [hpbR] at hredR
  have htR : optStrTruthy respR.error = true := by
    rw [herrR]
    exact decide_eq_true heR
  simp only [htR, if_true] at hredR
  have hgetR : respR.error.getD "" = eR := by rw [herrR]; rfl
  refine ⟨?_, by rw [hredB], ?_, by rw [hredR]⟩
  · rw [hredB]
    show Except.ok (⟨false, respB.error.getD ""⟩ : TransactionResult) = _
    rw [hgetB]
  · rw [hredR]
    show Except.ok (⟨false, respR.error.getD ""⟩ : TransactionResult) = _
    rw [hgetR]

/-- Backend refusing every write with "Not enough stock available". -/
def pbStockError : PostBackend :=
  fun _ => Except.ok ⟨none, some "Not enough stock available"⟩

/-- Witness for C2 (amended): a refused borrow and a refused return with
the sample cached state. -/
theorem write_business_rejection_witness :
    (jsTrim "u1" ≠ "" ∧ ("Not enough stock available" : String) ≠ "") ∧
    ((borrowComponent pbStockError "u1" "Case A" "Widget" 2
        liveStockState).1 =
      Except.ok ⟨false, "Not enough stock available"⟩ ∧
    (borrowComponent pbStockError "u1" "Case A" "Widget" 2
        liveStockState).2.cache = liveStockState.cache ∧
    (returnComponent pbStockError "u1" "Widget" 2 liveStockState).1 =
      Except.ok ⟨false, "Not enough stock available"⟩ ∧
    (returnComponent pbStockError "u1" "Widget" 2 liveStockState).2.cache =
      liveStockState.cache) :=
  ⟨⟨by decide, by decide⟩,
   write_business_rejection_no_invalidation pbStockError "u1" "Case A"
     "Widget" 2 liveStockState ⟨none, some "Not enough stock available"⟩
     ⟨none, some "Not enough stock available"⟩ "Not enough stock available"
     "Not enough stock available" (by decide) (by decide) (by decide)
     (by decide) (by norm_num) rfl rfl (by decide) rfl rfl (by decide)⟩

-- ─── C7 ─────────────────────────────────────────────────────────────────────

/-- C7: an argument violating its precondition — an empty required
string, or a quantity that is non-positive or not an integer — makes the
domain operation throw the ValidationError message synchronously, with
the returned state exactly the input state: the cache is untouched and no
request is added to the call log. -/
theorem validation_raises_before_network (pb : PostBackend)
    (userId component : String) (quantity : ℚ) (st : NetState)
    (hu : jsTrim userId ≠ "") (hm : jsTrim component ≠ "")
    (hq : quantity.den ≠ 1 ∨ quantity < 1) :
    returnComponent pb userId component quantity st =
      (Except.error "Quantity must be a positive integer.", st) ∧
    (∀ caseName, jsTrim caseName ≠ "" →
      borrowComponent pb userId caseName component quantity st =
        (Except.error "Quantity must be a positive integer.", st)) ∧
    (∀ s, jsTrim s = "" →
      returnComponent pb s component quantity st =
        (Except.error "User ID is required.", st)) ∧
    (∀ gb s now, jsTrim s = "" →
      fetchComponentsByCase gb s now st =
        (Except.error "Case name is required.", st)) ∧
    (∀ gb s, jsTrim s = "" →
      fetchUserHoldings gb s st =
        (Except.error "User ID is required.", st)) := by
  refine ⟨?_, ?_, ?_, ?_, ?_⟩
  · unfold returnComponent
    rw [validateNotEmpty_ok userId _ hu, validateNotEmpty_ok component _ hm,
        validatePositiveInt_err quantity _ hq]
    rfl
  · intro caseName hcn
    unfold borrowComponent
    rw [validateNotEmpty_ok userId _ hu, validateNotEmpty_ok caseName _ hcn,
        validateNotEmpty_ok component _ hm,
        validatePositiveInt_err quantity _ hq]
    rfl
  · intro s hs
    unfold returnComponent
    rw [validateNotEmpty_err s _ hs]
    rfl
  · intro gb s now hs
    unfold fetchComponentsByCase
    rw [validateNotEmpty_err s _ hs]
    rfl
  · intro gb s hs
    unfold fetchUserHoldings
    rw [validateNotEmpty_err s _ hs]
    rfl

/-- Witness for C7: `returnItem("u1", "Widget", 0)` (and the other
operations) against the sample cached state. -/
theorem validation_raises_before_network_witness :
    (jsTrim "u1" ≠ "" ∧ jsTrim "Widget" ≠ "" ∧
      ((0 : ℚ).den ≠ 1 ∨ (0 : ℚ) < 1)) ∧
    (returnComponent pbSuccess "u1" "Widget" 0 liveStockState =
      (Except.error "Quantity must be a positive integer.",
       liveStockState) ∧
    (∀ caseName, jsTrim caseName ≠ "" →
      borrowComponent pbSuccess "u1" caseName "Widget" 0 liveStockState =
        (Except.error "Quantity must be a positive integer.",
         liveStockState)) ∧
    (∀ s, jsTrim s = "" →
      returnComponent pbSuccess s "Widget" 0 liveStockState =
        (Except.error "User ID is required.", liveStockState)) ∧
    (∀ gb s now, jsTrim s = "" →
      fetchComponentsByCase gb s now liveStockState =
        (Except.error "Case name is required.", liveStockState)) ∧
    (∀ gb s, jsTrim s = "" →
      fetchUserHoldings gb s liveStockState =
        (Except.error "User ID is required.", liveStockState))) :=
  ⟨⟨by decide, by decide, Or.inr (by norm_num)⟩,
   validation_raises_before_network pbSuccess "u1" "Widget" 0
     liveStockState (by decide) (by decide) (Or.inr (by norm_num))⟩

-- ─── C9 ─────────────────────────────────────────────────────────────────────

theorem jsTrim_whitespace_only (s : String)
    (h : ∀ c ∈ s.data, isJsWhitespace c = true) : jsTrim s = "" := by
  unfold jsTrim
  have h1 : s.data.dropWhile isJsWhitespace = [] :=
    List.dropWhile_eq_nil_iff.mpr h
  rw [h1]
  rfl

/-- C9: a required string argument consisting only of whitespace is
rejected exactly like the empty string: `validateNotEmpty` throws the
same "is required." message for both, and each of the three string
positions of `borrowComponent` throws it synchronously with the state
returned unchanged (so before any network call). -/
theorem whitespace_only_argument_rejected (s : String)
    (hws : ∀ c ∈ s.data, isJsWhitespace c = true) :
    (∀ fieldName,
      validateNotEmpty s fieldName =
        Except.error (fieldName ++ " is required.") ∧
      validateNotEmpty "" fieldName =
        Except.error (fieldName ++ " is required.")) ∧
    (∀ pb caseName component q st,
      borrowComponent pb s caseName component q st =
        (Except.error "User ID is required.", st)) ∧
    (∀ pb userId component q st, jsTrim userId ≠ "" →
      borrowComponent pb userId s component q st =
        (Except.error "Case name is required.", st)) ∧
    (∀ pb userId caseName q st,
      jsTrim userId ≠ "" → jsTrim caseName ≠ "" →
      borrowComponent pb userId caseName s q st =
        (Except.error "Component is required.", st)) := by
  have hts : jsTrim s = "" := jsTrim_whitespace_only s hws
  refine ⟨?_, ?_, ?_, ?_⟩
  · intro fieldName
    exact ⟨validateNotEmpty_err s fieldName hts,
      validateNotEmpty_err "" fieldName rfl⟩
  · intro pb caseName component q st
    unfold borrowComponent
    rw [validateNotEmpty_err s _ hts]
    rfl
  · intro pb userId component q st hu
    unfold borrowComponent
    rw [validateNotEmpty_ok userId _ hu, validateNotEmpty_err s _ hts]
    rfl
  · intro pb userId caseName q st hu hc
    unfold borrowComponent
    rw [validateNotEmpty_ok userId _ hu, validateNotEmpty_ok caseName _ hc,
        validateNotEmpty_err s _ hts]
    rfl

/-- Witness for C9 at the three-space string. -/
theorem whitespace_only_argument_rejected_witness :
    (∀ c ∈ ("   " : String).data, isJsWhitespace c = true) ∧
    ((∀ fieldName,
      validateNotEmpty "   " fieldName =
        Except.error (fieldName ++ " is required.") ∧
      validateNotEmpty "" fieldName =
        Except.error (fieldName ++ " is required.")) ∧
    (∀ pb caseName component q st,
      borrowComponent pb "   " caseName component q st =
        (Except.error "User ID is required.", st)) ∧
    (∀ pb userId component q st, jsTrim userId ≠ "" →
      borrowComponent pb userId "   " component q st =
        (Except.error "Case name is required.", st)) ∧
    (∀ pb userId caseName q st,
      jsTrim userId ≠ "" → jsTrim caseName ≠ "" →
      borrowComponent pb userId caseName "   " q st =
        (Except.error "Component is required.", st))) :=
  ⟨by decide, whitespace_only_argument_rejected "   " (by decide)⟩

-- ─── C10 ────────────────────────────────────────────────────────────────────

/-- C10: for validated calls, the POST body of `borrowComponent` and
`returnComponent`, and the GET query of `fetchUserHoldings`, carry the
TRIMMED user id while `caseName` and `component` are passed exactly as
supplied; the success confirmation message also interpolates `component`
exactly as supplied. -/
theorem trimmed_userId_sent (pb : PostBackend) (gb : GetBackend)
    (userId caseName component : String) (quantity : ℚ) (st : NetState)
    (hu : jsTrim userId ≠ "") (hc : jsTrim caseName ≠ "")
    (hm : jsTrim component ≠ "") (hq : quantity.den = 1)
    (hq1 : 1 ≤ quantity) :
    (borrowComponent pb userId caseName component quantity st).2.calls =
      st.calls ++
        [Request.post (PostBody.borrow (jsTrim userId) caseName component
          quantity)] ∧
    (returnComponent pb userId component quantity st).2.calls =
      st.calls ++
        [Request.post (PostBody.ret (jsTrim userId) component quantity)] ∧
    (fetchUserHoldings gb userId st).2.calls =
      st.calls ++
        [Request.get [("action", "getUserHoldings"),
          ("userId", jsTrim userId)]] ∧
    (∀ resp : WriteResponse,
      pb (PostBody.borrow (jsTrim userId) caseName component quantity) =
        Except.ok resp →
      resp.error = none →
      (borrowComponent pb userId caseName component quantity st).1 =
        Except.ok ⟨true, "Successfully borrowed " ++ jsNumToString quantity
          ++ "x " ++ component ++ "!"⟩) := by
  have hredB := borrowComponent_validated pb userId caseName component
    quantity st hu hc hm hq hq1
  have hredR := returnComponent_validated pb userId component quantity st
    hu hm hq hq1
  refine ⟨?_, ?_, ?_, ?_⟩
  · rw [hredB]
    cases pb (PostBody.borrow (jsTrim userId) caseName component quantity) with
    | error e => rfl
    | ok data =>
        dsimp only
        by_cases hda : optStrTruthy data.error = true
        · rw [if_pos hda]
        · rw [if_neg hda]
  · rw [hredR]
    cases pb (PostBody.ret (jsTrim userId) component quantity) with
    | error e => rfl
    | ok data =>
        dsimp only
        by_cases hda : optStrTruthy data.error = true
        · rw [if_pos hda]
        · rw [if_neg hda]
  · unfold fetchUserHoldings getHttp
    rw [validateNotEmpty_ok userId _ hu]
  · intro resp hpb herr
    rw [hredB, hpb]
    have hfalse : optStrTruthy resp.error = false := by
      rw [herr]
      rfl
    dsimp only
    rw [hfalse]
    rfl

/-- Witness for C10: `borrow(" u1 ", "Case A", "Widget", 2)` — the body
carries the trimmed "u1" — with the accepting backend and empty-array GET
backend. -/
theorem trimmed_userId_sent_witness :
    (jsTrim " u1 " ≠ "" ∧ jsTrim "Case A" ≠ "" ∧ jsTrim "Widget" ≠ "" ∧
      (2 : ℚ).den = 1 ∧ (1 : ℚ) ≤ 2 ∧ jsTrim " u1 " = "u1") ∧
    (borrowComponent pbSuccess " u1 " "Case A" "Widget" 2
        liveStockState).2.calls =
      liveStockState.calls ++
        [Request.post (PostBody.borrow (jsTrim " u1 ") "Case A" "Widget" 2)] :=
  ⟨⟨by decide, by decide, by decide, by decide, by norm_num, by decide⟩,
   (trimmed_userId_sent pbSuccess gbEmptyArr " u1 " "Case A" "Widget" 2
     liveStockState (by decide) (by decide) (by decide) (by decide)
     (by norm_num)).1⟩

end MakerspaceHub
